import Mathlib

/-!
Shallow embedding of the gin-utils library (a thin convenience layer over
the gin web framework): the response envelope helpers, the validation
error responder, route registration, option-based configuration, and the
server start/stop lifecycle.  Each definition is translated directly from
the corresponding Go source file; doc comments name the file and symbol
it embeds.
-/

set_option linter.unusedVariables false

namespace GinUtils

/-- JSON values, modelling what Go's `encoding/json` renders. -/
inductive Json where
  | null
  | str (s : String)
  | num (n : Int)
  | bool (b : Bool)
  | arr (xs : List Json)
  | obj (fields : List (String × Json))

/-- `ErrorResponse` from the response package: `{code int; message string}`. -/
structure ErrorResponse where
  code : Int
  message : String
deriving DecidableEq, Repr

/-- `Envelope` from the response package.  The Go fields `Data any`,
`Error *ErrorResponse`, `Meta any` are all nilable, so each is an
`Option`; a `none` models Go `nil`. -/
structure Envelope where
  data : Option Json
  error : Option ErrorResponse
  meta : Option Json

/-- JSON rendering of an `Envelope`.  All three Go fields carry
`omitempty`, so a `nil` field is omitted from the object. -/
def renderEnvelope (e : Envelope) : Json :=
  .obj ((match e.data with
          | some d => [("data", d)]
          | none => []) ++
        (match e.error with
          | some er => [("error", .obj [("code", .num er.code), ("message", .str er.message)])]
          | none => []) ++
        (match e.meta with
          | some m => [("meta", m)]
          | none => []))

/-- `OK(c, data, meta)` from the response package: writes status 200 with
`Envelope{Data: data}`.  The result is the (status, envelope) pair written
to the context. -/
def OK (data meta : Option Json) : Nat × Envelope :=
  (200, { data := data, error := none, meta := none })

/-- `WithMeta(c, data, meta)` from the response package: writes status 200
with `Envelope{Data: data, Meta: meta}`. -/
def WithMeta (data meta : Option Json) : Nat × Envelope :=
  (200, { data := data, error := none, meta := meta })

/-- `Fail(c, code, message)` from the response package: picks HTTP 500
when `code == -1` and HTTP 400 otherwise, and writes
`Envelope{Error: &ErrorResponse{Code: code, Message: message}}`. -/
def Fail (code : Int) (message : String) : Nat × Envelope :=
  (if code = -1 then 500 else 400,
   { data := none, error := some { code := code, message := message }, meta := none })

/-- A field of a `validator.ValidationErrors` value: the failed struct
field name (`fe.Field()`) and the failed validation tag (`fe.Tag()`). -/
structure FieldError where
  field : String
  tag : String
deriving DecidableEq, Repr

/-- `ValidationErrorResponse` from middleware: `{field, message}`. -/
structure ValidationErrorResponse where
  field : String
  message : String
deriving DecidableEq, Repr

/-- JSON rendering of a `ValidationErrorResponse`. -/
def renderValidationEntry (v : ValidationErrorResponse) : Json :=
  .obj [("field", .str v.field), ("message", .str v.message)]

/-- `ValidatorErrorResponse(c, err)` from middleware/errors.go: builds one
`ValidationErrorResponse{Field: fe.Field(), Message: fe.Tag()}` per field
error and aborts with status 422 and that list as the JSON body. -/
def ValidatorErrorResponse (errs : List FieldError) : Nat × Json :=
  (422, .arr (errs.map (fun fe => renderValidationEntry { field := fe.field, message := fe.tag })))

/-- The body written by the `NoRoute` handler registered in
`RegisterHandlers` (server.go): `gin.H{"message": "Not found"}` with
status 404. -/
def noRouteResponse : Nat × Json :=
  (404, .obj [("message", .str "Not found")])

/-- A JSON value has the uniform envelope shape `\x7bdata?, error?, meta?\x7d`
when it is an object whose keys all lie in that set. -/
def isEnvelopeShape : Json → Bool
  | .obj fields => fields.all (fun kv => kv.1 = "data" || kv.1 = "error" || kv.1 = "meta")
  | _ => false

/-- A middleware value (`func(c *gin.Context)` in Go), as stored in the
configuration: the pass-through default `func(c)\x7b c.Next() \x7d`, the default
CORS middleware built by `corsMiddleware()`, a caller-supplied function
(labelled by an id), or Go `nil`. -/
inductive MwVal where
  | passThrough
  | defaultCors
  | custom (id : Nat)
  | nilVal
deriving DecidableEq, Repr

/-- The `cfg` struct from config.go: host, port, mode and the three
middleware hooks. -/
structure cfg where
  host : String
  port : Nat
  mode : String
  authMiddleware : MwVal
  permissionMiddleware : MwVal
  corsMiddleware : MwVal
deriving DecidableEq, Repr

/-- `MODE_PROD` from config.go. -/
def MODE_PROD : String := "prod"

/-- `MODE_DEV` from config.go. -/
def MODE_DEV : String := "dev"

/-- `MODE_TEST` from config.go. -/
def MODE_TEST : String := "test"

/-- The functional options of config.go (Go type `Option`, renamed here to
avoid the core `Option` type): `WithHost`, `WithPort`, `WithMode`,
`WithAuthMiddleware`, `WithPermissionMiddleware`, `WithCorsMiddleware`. -/
inductive ServerOption where
  | withHost (host : String)
  | withPort (port : Nat)
  | withMode (mode : String)
  | withAuthMiddleware (m : MwVal)
  | withPermissionMiddleware (m : MwVal)
  | withCorsMiddleware (m : MwVal)
deriving DecidableEq, Repr

/-- The field assignment each option performs when applied to a `cfg`
(config.go, the bodies of the six `With...` constructors). -/
def applyOption (c : cfg) : ServerOption → cfg
  | .withHost h => { c with host := h }
  | .withPort p => { c with port := p }
  | .withMode m => { c with mode := m }
  | .withAuthMiddleware m => { c with authMiddleware := m }
  | .withPermissionMiddleware m => { c with permissionMiddleware := m }
  | .withCorsMiddleware m => { c with corsMiddleware := m }

/-- The initial configuration literal built at the top of
`NewTransportServer` (server.go): host "localhost", port 8080, prod mode,
pass-through auth and permission hooks, default CORS middleware. -/
def defaultCfg : cfg :=
  { host := "localhost", port := 8080, mode := MODE_PROD,
    authMiddleware := .passThrough, permissionMiddleware := .passThrough,
    corsMiddleware := .defaultCors }

/-- The configuration produced by `NewTransportServer(opts...)`
(server.go): start from the default literal, then `for _, opt := range opts
\x7b opt(c) \x7d`. -/
def NewTransportServerCfg (opts : List ServerOption) : cfg :=
  opts.foldl applyOption defaultCfg

/-- The `Route` struct from routes.go: URI, HTTP method, handler
function, auth flag and middleware list.  Handler functions and
middlewares are modelled by numeric labels. -/
structure Route where
  uri : String
  method : String
  handler : Nat
  isAuthProtected : Bool
  middlewares : List Nat
deriving DecidableEq, Repr

/-- The `Handler` interface from routes.go: anything providing
`GetRoutes() []Route`.  Modelled by its observable route list. -/
structure Handler where
  routes : List Route
deriving DecidableEq, Repr

/-- `GetRoutes` of a `Handler`. -/
def Handler.GetRoutes (h : Handler) : List Route := h.routes

/-- An entry of a gin handler chain, labelled by what installed it: the
engine-level CORS middleware, the configured auth or permission hook, a
route middleware, or the route handler itself. -/
inductive ChainEntry where
  | cors
  | auth
  | permission
  | mw (id : Nat)
  | handler (id : Nat)
deriving DecidableEq, Repr

/-- The two gin groups `RegisterHandlers` registers routes on:
`apiGroup := engine.Group("/api/v1")` and
`authProtectedGroup := apiGroup.Group("/")`. -/
inductive GroupKind where
  | apiGroup
  | authProtectedGroup
deriving DecidableEq, Repr

/-- A route as registered on the engine: method, absolute path (the
group prefix "/api/v1" joined with the route URI), the group it was
registered on, and the handlers chain passed to the registration call. -/
structure RegisteredRoute where
  method : String
  path : String
  group : GroupKind
  chain : List ChainEntry
deriving DecidableEq, Repr

/-- The `handlersChain` built in `RegisterHandlers` (server.go): a copy of
`route.Middlewares` followed by `route.Handler`. -/
def handlersChain (r : Route) : List ChainEntry :=
  r.middlewares.map ChainEntry.mw ++ [ChainEntry.handler r.handler]

/-- The `switch route.Method` of `RegisterHandlers` (server.go lines
78-103): a GET/POST/PUT/DELETE route is registered once, on
`authProtectedGroup` when `route.IsAuthProtected` and on `apiGroup`
otherwise, under the "/api/v1" prefix; any other method falls through the
switch and registers nothing. -/
def registerRoute (r : Route) : List RegisteredRoute :=
  if r.method = "GET" ∨ r.method = "POST" ∨ r.method = "PUT" ∨ r.method = "DELETE" then
    [{ method := r.method,
       path := "/api/v1" ++ r.uri,
       group := if r.isAuthProtected then .authProtectedGroup else .apiGroup,
       chain := handlersChain r }]
  else
    []

/-- `RegisterHandlers(handlers...)` (server.go): for every handler, for
every route of `handler.GetRoutes()`, perform the switch registration.
The result is the list of routes registered on the engine. -/
def RegisterHandlers (handlers : List Handler) : List RegisteredRoute :=
  ((handlers.map Handler.GetRoutes).flatten.map registerRoute).flatten

/-- The middleware chain a request entering a group traverses before the
route's own chain (server.go): the engine carries `c.corsMiddleware` via
`engine.Use`; `authProtectedGroup` additionally carries
`s.cfg.authMiddleware` and, when non-nil, `s.cfg.permissionMiddleware`,
installed in that order in `RegisterHandlers`. -/
def groupChain (c : cfg) : GroupKind → List ChainEntry
  | .apiGroup => [.cors]
  | .authProtectedGroup =>
      [.cors, .auth] ++ (if c.permissionMiddleware = .nilVal then [] else [.permission])

/-- The full handler chain a request dispatched to a registered route runs
through: the group-level middlewares followed by the route's own chain. -/
def effectiveChain (c : cfg) (rr : RegisteredRoute) : List ChainEntry :=
  groupChain c rr.group ++ rr.chain

/-- The `http.Server` built by `Start` (server.go): its address and the
engine it serves (engines are modelled by numeric labels). -/
structure HttpServer where
  addr : String
  handlerEngine : Nat
deriving DecidableEq, Repr

/-- The `TransportServer` struct (server.go): configuration, engine, and
the listener slot, `nil` until `Start` stores one. -/
structure TransportServer where
  cfg : cfg
  engine : Nat
  server : Option HttpServer
deriving DecidableEq, Repr

/-- `Start` (server.go): format `addr := host:port`, store
`&http.Server\x7bAddr: addr, Handler: s.engine\x7d` in the server slot, and
return `srv.ListenAndServe()` on the stored listener.  The result is the
updated server state paired with the listener on which `ListenAndServe`
blocks. -/
def Start (s : TransportServer) : TransportServer × HttpServer :=
  let srv : HttpServer :=
    { addr := s.cfg.host ++ ":" ++ toString s.cfg.port, handlerEngine := s.engine }
  ({ s with server := some srv }, srv)

/-- What `Stop` returns: `nil` when no listener was ever stored, or a
shutdown of the stored listener under the caller's context (contexts
modelled by numeric labels). -/
inductive StopAction where
  | nilResult
  | shutdown (srv : HttpServer) (ctx : Nat)
deriving DecidableEq, Repr

/-- `Stop(ctx)` (server.go): read the stored listener; if it is nil
return nil, otherwise return `srv.Shutdown(ctx)`.  `Stop` writes no field,
so the state is returned unchanged alongside the action taken. -/
def Stop (s : TransportServer) (ctx : Nat) : TransportServer × StopAction :=
  match s.server with
  | none => (s, .nilResult)
  | some srv => (s, .shutdown srv ctx)

/-- The ways `c.ShouldBind(&req)` can fail (middleware/request): either a
`validator.ValidationErrors` value — recognised by `IsValidationError` via
`errors.As` — carrying one entry per failed field, or any other error. -/
inductive BindError where
  | validation (errs : List FieldError)
  | other (msg : String)
deriving DecidableEq, Repr

/-- The outcome of `c.ShouldBind(&req)` for a request-body type `T`:
either the bound value or a bind error.  The outcome is an input of the
middleware model, since binding depends on the incoming request. -/
inductive BindOutcome (T : Type) where
  | ok (v : T)
  | err (e : BindError)

/-- The observable effects of the middleware on a `gin.Context` carrying a
request of body type `T`: the value stashed under `requestKeyCtx` by
`c.Set`, the written status and JSON body, whether the context was
aborted, and whether `c.Next()` was called. -/
structure Ctx (T : Type) where
  stash : Option T
  status : Option Nat
  body : Option Json
  aborted : Bool
  nextCalled : Bool

/-- The body written by `BindAndValidate` on a non-validation bind error:
`gin.H\x7b"error": gin.H\x7b"message": "Invalid request data"\x7d\x7d`. -/
def badRequestBody : Json :=
  .obj [("error", .obj [("message", .str "Invalid request data")])]

/-- `BindAndValidate[T]()` (middleware/request): on a successful bind,
stash a pointer to the bound value under the request key and call
`c.Next()`; on a `validator.ValidationErrors` failure, run
`ValidatorErrorResponse` (abort with 422 and the field-error list); on any
other failure, abort with 400 and the invalid-request body. -/
def BindAndValidate {T : Type} (bind : BindOutcome T) (c : Ctx T) : Ctx T :=
  match bind with
  | .ok v => { c with stash := some v, nextCalled := true }
  | .err (.validation errs) =>
      { c with status := some (ValidatorErrorResponse errs).1,
               body := some (ValidatorErrorResponse errs).2,
               aborted := true }
  | .err (.other _) =>
      { c with status := some 400, body := some badRequestBody, aborted := true }

/-! ## Theorems -/

/-- C1 (counterexample): the claim that exactly one of the `Data` and
`Error` fields is non-nil "even when the caller passes nil data" is false:
`OK` with nil data produces an envelope in which `Data` and `Error` are
both nil, so neither field is populated. -/
theorem ok_nil_data_envelope_not_exclusive :
    ¬ (((OK none none).2.data ≠ none ∧ (OK none none).2.error = none) ∨
       ((OK none none).2.data = none ∧ (OK none none).2.error ≠ none)) := by
  simp [OK]

/-- C1 (amended): `OK` and `WithMeta` produce an envelope whose `Error`
field is nil and whose `Data` field is the caller's data, and `Fail`
produces an envelope whose `Data` field is nil and whose `Error` field is
non-nil; hence at most one of `Data`/`Error` is ever populated, and
exactly one whenever the data passed to `OK`/`WithMeta` is non-nil — but
with nil data those helpers produce an envelope in which both are nil. -/
theorem envelope_data_error_at_most_one (data meta : Option Json) (code : Int) (msg : String) :
    (OK data meta).2.error = none ∧ (OK data meta).2.data = data ∧
    (WithMeta data meta).2.error = none ∧ (WithMeta data meta).2.data = data ∧
    (Fail code msg).2.data = none ∧ ((Fail code msg).2.error).isSome = true ∧
    ¬ (((OK data meta).2.data).isSome = true ∧ ((OK data meta).2.error).isSome = true) ∧
    ¬ (((WithMeta data meta).2.data).isSome = true ∧ ((WithMeta data meta).2.error).isSome = true) ∧
    ¬ (((Fail code msg).2.data).isSome = true ∧ ((Fail code msg).2.error).isSome = true) ∧
    (data.isSome = true →
      ((OK data meta).2.data).isSome = true ∧ (OK data meta).2.error = none ∧
      ((WithMeta data meta).2.data).isSome = true ∧ (WithMeta data meta).2.error = none) := by
  simp [OK, WithMeta, Fail]

/-- Witness for C1 (amended) at concrete inputs. -/
theorem envelope_data_error_at_most_one_witness :
    (some (Json.num 7) : Option Json).isSome = true ∧
    ((OK (some (Json.num 7)) none).2.data).isSome = true ∧
    (OK (some (Json.num 7)) none).2.error = none := by
  have h := envelope_data_error_at_most_one (some (Json.num 7)) none 0 ""
  exact ⟨rfl, (h.2.2.2.2.2.2.2.2.2 rfl).1, (h.2.2.2.2.2.2.2.2.2 rfl).2.1⟩

/-- C2 (counterexample): not every JSON body produced by this library's
response-writing operations has the envelope shape: the registered
not-found handler writes `\x7b"message": "Not found"\x7d`, and the
validation-error responder writes a bare JSON array, neither of which is
an object over the keys data/error/meta. -/
theorem non_envelope_response_bodies :
    isEnvelopeShape noRouteResponse.2 = false ∧
    isEnvelopeShape (ValidatorErrorResponse [{ field := "name", tag := "required" }]).2 = false := by
  exact ⟨rfl, rfl⟩

/-- C2 (amended): the success/error response helpers (`OK`, `WithMeta`,
`Fail`) always render a body of the uniform envelope shape
`\x7bdata?, error?, meta?\x7d`; the validation-error responder instead writes a
JSON array of `\x7bfield, message\x7d` objects and the registered not-found
handler writes `\x7b"message": "Not found"\x7d`. -/
theorem response_body_shapes (data meta : Option Json) (code : Int) (msg : String)
    (errs : List FieldError) :
    isEnvelopeShape (renderEnvelope (OK data meta).2) = true ∧
    isEnvelopeShape (renderEnvelope (WithMeta data meta).2) = true ∧
    isEnvelopeShape (renderEnvelope (Fail code msg).2) = true ∧
    (ValidatorErrorResponse errs).2 =
      .arr (errs.map (fun fe => .obj [("field", .str fe.field), ("message", .str fe.tag)])) ∧
    noRouteResponse.2 = .obj [("message", .str "Not found")] := by
  refine ⟨?_, ?_, ?_, ?_, rfl⟩
  · cases data <;> simp [OK, renderEnvelope, isEnvelopeShape]
  · cases data <;> cases meta <;> simp [WithMeta, renderEnvelope, isEnvelopeShape]
  · simp [Fail, renderEnvelope, isEnvelopeShape]
  · simp [ValidatorErrorResponse, renderValidationEntry]

/-- C8: `Fail` maps the application error code to the HTTP status
deterministically — 500 exactly when the code is -1, and 400 for every
other code (including 404 and 500 used as application codes) — and always
carries `\x7bcode, message\x7d` in the envelope's error field with data and
meta nil. -/
theorem fail_status_mapping (code : Int) (message : String) :
    (Fail (-1) message).1 = 500 ∧
    (code ≠ -1 → (Fail code message).1 = 400) ∧
    (Fail 404 message).1 = 400 ∧
    (Fail 500 message).1 = 400 ∧
    (Fail code message).2.error = some { code := code, message := message } ∧
    (Fail code message).2.data = none ∧
    (Fail code message).2.meta = none := by
  refine ⟨rfl, fun h => ?_, rfl, rfl, rfl, rfl, rfl⟩
  simp [Fail, h]

/-- Witness for C8 at a concrete non-(-1) code. -/
theorem fail_status_mapping_witness :
    (7 : Int) ≠ -1 ∧ (Fail 7 "boom").1 = 400 := by
  exact ⟨by decide, (fail_status_mapping 7 "boom").2.1 (by decide)⟩

/-- C9: `OK` ignores its meta parameter entirely — `OK` at the same data
and any two metas produces identical responses, namely status 200 with an
envelope containing only the data — and meta is included in the response
only by `WithMeta`. -/
theorem ok_ignores_meta (data m1 m2 : Option Json) :
    OK data m1 = OK data m2 ∧
    (OK data m1).1 = 200 ∧
    (OK data m1).2.data = data ∧
    (OK data m1).2.meta = none ∧
    (OK data m1).2.error = none ∧
    (WithMeta data m1).2.meta = m1 := by
  exact ⟨rfl, rfl, rfl, rfl, rfl, rfl⟩

/-- C3 (counterexample): `RegisterHandlers` does not register every route
descriptor: a route whose method is PATCH falls through the method switch
and nothing at all is registered for it. -/
theorem patch_route_registers_nothing :
    RegisterHandlers
      [{ routes := [{ uri := "/p", method := "PATCH", handler := 0,
                      isAuthProtected := false, middlewares := [] }] }] = [] := by
  rfl

/-- C3 (amended): for every list of handlers, `RegisterHandlers` iterates
over every route descriptor returned by each handler's `GetRoutes` and,
for each descriptor whose method is GET, POST, PUT or DELETE, registers it
on a framework group under the "/api/v1" prefix — the auth-protected
subgroup when the auth-required flag is true and the plain API group
otherwise — with a handler chain consisting of the route's middleware list
in order followed by the route's handler; descriptors with any other
method are skipped. -/
theorem register_handlers_registers_route (handlers : List Handler) (r : Route)
    (hmem : r ∈ (handlers.map Handler.GetRoutes).flatten)
    (hm : r.method = "GET" ∨ r.method = "POST" ∨ r.method = "PUT" ∨ r.method = "DELETE") :
    { method := r.method,
      path := "/api/v1" ++ r.uri,
      group := if r.isAuthProtected then GroupKind.authProtectedGroup else GroupKind.apiGroup,
      chain := r.middlewares.map ChainEntry.mw ++ [ChainEntry.handler r.handler] } ∈
      RegisterHandlers handlers := by
  unfold RegisterHandlers
  rw [List.mem_flatten]
  refine ⟨registerRoute r, List.mem_map_of_mem _ hmem, ?_⟩
  simp [registerRoute, handlersChain, hm]

/-- Witness for C3 (amended) at a concrete handler list and route. -/
theorem register_handlers_registers_route_witness :
    ({ uri := "/test", method := "GET", handler := 5, isAuthProtected := true,
       middlewares := [1, 2] } : Route) ∈
      (([{ routes := [{ uri := "/test", method := "GET", handler := 5,
                        isAuthProtected := true, middlewares := [1, 2] }] }] :
          List Handler).map Handler.GetRoutes).flatten ∧
    ({ method := "GET", path := "/api/v1/test", group := GroupKind.authProtectedGroup,
       chain := [ChainEntry.mw 1, ChainEntry.mw 2, ChainEntry.handler 5] } : RegisteredRoute) ∈
      RegisterHandlers
        [{ routes := [{ uri := "/test", method := "GET", handler := 5,
                        isAuthProtected := true, middlewares := [1, 2] }] }] := by
  refine ⟨by decide, ?_⟩
  have h := register_handlers_registers_route
    [{ routes := [{ uri := "/test", method := "GET", handler := 5,
                    isAuthProtected := true, middlewares := [1, 2] }] }]
    { uri := "/test", method := "GET", handler := 5, isAuthProtected := true,
      middlewares := [1, 2] }
    (by decide) (Or.inl rfl)
  simpa using h

/-- C4: with a non-nil permission hook configured, a request dispatched to
a route registered with the auth flag set runs the CORS middleware, then
the configured auth middleware, then the configured permission middleware,
and only then the route's own middlewares and handler; a route registered
with the flag unset passes through neither the auth nor the permission
hook. -/
theorem auth_protected_dispatch_chain (c : cfg) (r : Route) (rr : RegisteredRoute)
    (hrr : rr ∈ registerRoute r) (hp : c.permissionMiddleware ≠ MwVal.nilVal) :
    (r.isAuthProtected = true →
      effectiveChain c rr =
        ChainEntry.cors :: ChainEntry.auth :: ChainEntry.permission ::
          (r.middlewares.map ChainEntry.mw ++ [ChainEntry.handler r.handler])) ∧
    (r.isAuthProtected = false →
      ChainEntry.auth ∉ effectiveChain c rr ∧
      ChainEntry.permission ∉ effectiveChain c rr) := by
  unfold registerRoute at hrr
  by_cases hcase : r.method = "GET" ∨ r.method = "POST" ∨ r.method = "PUT" ∨ r.method = "DELETE"
  · rw [if_pos hcase] at hrr
    rw [List.mem_singleton] at hrr
    subst hrr
    constructor
    · intro ha
      simp [effectiveChain, groupChain, ha, handlersChain, hp]
    · intro ha
      simp [effectiveChain, groupChain, ha, handlersChain]
  · rw [if_neg hcase] at hrr
    exact absurd hrr (List.not_mem_nil rr)

/-- Witness for C4: a concrete auth-protected GET route under the default
configuration (whose permission hook is the non-nil pass-through). -/
theorem auth_protected_dispatch_chain_witness :
    ({ method := "GET", path := "/api/v1/a", group := GroupKind.authProtectedGroup,
       chain := [ChainEntry.mw 3, ChainEntry.handler 9] } : RegisteredRoute) ∈
      registerRoute { uri := "/a", method := "GET", handler := 9,
                      isAuthProtected := true, middlewares := [3] } ∧
    defaultCfg.permissionMiddleware ≠ MwVal.nilVal ∧
    effectiveChain defaultCfg
      { method := "GET", path := "/api/v1/a", group := GroupKind.authProtectedGroup,
        chain := [ChainEntry.mw 3, ChainEntry.handler 9] } =
      [ChainEntry.cors, ChainEntry.auth, ChainEntry.permission,
       ChainEntry.mw 3, ChainEntry.handler 9] := by
  refine ⟨by decide, by decide, ?_⟩
  have h := auth_protected_dispatch_chain defaultCfg
    { uri := "/a", method := "GET", handler := 9, isAuthProtected := true, middlewares := [3] }
    { method := "GET", path := "/api/v1/a", group := GroupKind.authProtectedGroup,
      chain := [ChainEntry.mw 3, ChainEntry.handler 9] }
    (by decide) (by decide)
  simpa using h.1 rfl

/-- C10: a route descriptor whose method is not exactly one of GET, POST,
PUT or DELETE registers nothing: `registerRoute` yields no registration
for it, and `RegisterHandlers` on a handler list extended with such a
route produces exactly the registrations of the list without it. -/
theorem non_crud_method_registers_nothing (r : Route) (handlers : List Handler)
    (hm : r.method ≠ "GET" ∧ r.method ≠ "POST" ∧ r.method ≠ "PUT" ∧ r.method ≠ "DELETE") :
    registerRoute r = [] ∧
    RegisterHandlers ({ routes := [r] } :: handlers) = RegisterHandlers handlers := by
  have hreg : registerRoute r = [] := by
    unfold registerRoute
    rw [if_neg]
    push_neg
    exact hm
  refine ⟨hreg, ?_⟩
  simp [RegisterHandlers, Handler.GetRoutes, hreg]

/-- Witness for C10: a concrete PATCH route registers nothing. -/
theorem non_crud_method_registers_nothing_witness :
    (("PATCH" : String) ≠ "GET" ∧ ("PATCH" : String) ≠ "POST" ∧
     ("PATCH" : String) ≠ "PUT" ∧ ("PATCH" : String) ≠ "DELETE") ∧
    registerRoute { uri := "/x", method := "PATCH", handler := 1,
                    isAuthProtected := true, middlewares := [] } = [] := by
  refine ⟨by decide, ?_⟩
  exact (non_crud_method_registers_nothing
    { uri := "/x", method := "PATCH", handler := 1, isAuthProtected := true, middlewares := [] }
    [] (by decide)).1

/-- C5: for every request-body type `T`, the generic bind-and-validate
middleware stashes a pointer to the bound value under the request key and
calls the next handler when binding succeeds (leaving status and abort
state untouched); aborts with HTTP 422 and a JSON list of
`\x7bfield, message\x7d` entries — one per failed field, the message being the
failed validation tag — when binding fails with a validation error; and
aborts with HTTP 400 without stashing a value when binding fails with any
other error. -/
theorem bind_and_validate_behavior {T : Type} (c : Ctx T) :
    (∀ v : T,
      (BindAndValidate (.ok v) c).stash = some v ∧
      (BindAndValidate (.ok v) c).nextCalled = true ∧
      (BindAndValidate (.ok v) c).status = c.status ∧
      (BindAndValidate (.ok v) c).body = c.body ∧
      (BindAndValidate (.ok v) c).aborted = c.aborted) ∧
    (∀ errs : List FieldError,
      (BindAndValidate (.err (.validation errs)) c).status = some 422 ∧
      (BindAndValidate (.err (.validation errs)) c).body =
        some (.arr (errs.map (fun fe => .obj [("field", .str fe.field),
                                              ("message", .str fe.tag)]))) ∧
      (BindAndValidate (.err (.validation errs)) c).aborted = true ∧
      (BindAndValidate (.err (.validation errs)) c).stash = c.stash ∧
      (BindAndValidate (.err (.validation errs)) c).nextCalled = c.nextCalled) ∧
    (∀ msg : String,
      (BindAndValidate (.err (.other msg)) c).status = some 400 ∧
      (BindAndValidate (.err (.other msg)) c).aborted = true ∧
      (BindAndValidate (.err (.other msg)) c).stash = c.stash ∧
      (BindAndValidate (.err (.other msg)) c).nextCalled = c.nextCalled) := by
  refine ⟨fun v => ⟨rfl, rfl, rfl, rfl, rfl⟩, fun errs => ?_, fun msg => ⟨rfl, rfl, rfl, rfl⟩⟩
  refine ⟨rfl, ?_, rfl, rfl, rfl⟩
  simp [BindAndValidate, ValidatorErrorResponse, renderValidationEntry]

/-- C6: the configuration built by `NewTransportServer` starts from host
"localhost", port 8080, production mode, pass-through authentication and
permission hooks and the default CORS middleware, then applies the
caller's options in the order given; each option overwrites exactly the
configuration field it targets, and a later option for the same field wins
(applying an appended option acts on the result of all earlier ones). -/
theorem new_transport_server_config :
    NewTransportServerCfg [] =
      { host := "localhost", port := 8080, mode := MODE_PROD,
        authMiddleware := .passThrough, permissionMiddleware := .passThrough,
        corsMiddleware := .defaultCors } ∧
    (∀ (c : cfg) (h : String), applyOption c (.withHost h) = { c with host := h }) ∧
    (∀ (c : cfg) (p : Nat), applyOption c (.withPort p) = { c with port := p }) ∧
    (∀ (c : cfg) (m : String), applyOption c (.withMode m) = { c with mode := m }) ∧
    (∀ (c : cfg) (m : MwVal), applyOption c (.withAuthMiddleware m) =
      { c with authMiddleware := m }) ∧
    (∀ (c : cfg) (m : MwVal), applyOption c (.withPermissionMiddleware m) =
      { c with permissionMiddleware := m }) ∧
    (∀ (c : cfg) (m : MwVal), applyOption c (.withCorsMiddleware m) =
      { c with corsMiddleware := m }) ∧
    (∀ (opts : List ServerOption) (o : ServerOption),
      NewTransportServerCfg (opts ++ [o]) = applyOption (NewTransportServerCfg opts) o) ∧
    (NewTransportServerCfg [.withPort 3000, .withPort 9000]).port = 9000 := by
  refine ⟨rfl, fun c h => rfl, fun c p => rfl, fun c m => rfl, fun c m => rfl,
    fun c m => rfl, fun c m => rfl, fun opts o => ?_, rfl⟩
  simp [NewTransportServerCfg, List.foldl_append]

/-- C7: `Start` builds an HTTP listener whose address is the configured
`host:port` and whose handler is the engine, stores it in the server slot,
and blocks on exactly that stored listener; `Stop` with a stored listener
shuts that listener down under the caller's context, and `Stop` called
before `Start` ever stored a listener returns nil and leaves the server
state unchanged. -/
theorem start_stop_lifecycle (s : TransportServer) (ctx : Nat) :
    (Start s).1.server =
      some { addr := s.cfg.host ++ ":" ++ toString s.cfg.port, handlerEngine := s.engine } ∧
    some (Start s).2 = (Start s).1.server ∧
    (Start s).1.cfg = s.cfg ∧ (Start s).1.engine = s.engine ∧
    (s.server = none → Stop s ctx = (s, .nilResult)) ∧
    (∀ srv : HttpServer, s.server = some srv → Stop s ctx = (s, .shutdown srv ctx)) ∧
    Stop (Start s).1 ctx = ((Start s).1, .shutdown (Start s).2 ctx) := by
  refine ⟨rfl, rfl, rfl, rfl, fun h => ?_, fun srv h => ?_, rfl⟩
  · simp [Stop, h]
  · simp [Stop, h]

/-- Witness for C7: a concrete never-started server, stopped. -/
theorem start_stop_lifecycle_witness :
    ({ cfg := defaultCfg, engine := 0, server := none } : TransportServer).server = none ∧
    Stop { cfg := defaultCfg, engine := 0, server := none } 0 =
      ({ cfg := defaultCfg, engine := 0, server := none }, .nilResult) := by
  exact ⟨rfl,
    (start_stop_lifecycle { cfg := defaultCfg, engine := 0, server := none } 0).2.2.2.2.1 rfl⟩

end GinUtils
